import Mathlib

/-!
# Shallow embedding of the GP2Y1014AU dust-sensor driver

The source (`src/sensor.rs`) is a small `embedded-hal` driver:

* `Gp2y1014au` stores three caller-supplied capabilities: an output pin
  for the sensor's emitter LED (`pin_led`), an analog channel value
  (`pin_data`) and a one-shot ADC reader (`one_shot_reader`).
* `Gp2y1014au::new` stores them, `Gp2y1014au::split` gives them back.
* `Gp2y1014au::read` drives the protocol: `pin_led.set_low()`, then a
  retry loop around `one_shot_reader.read(&mut pin_data)` that continues
  on `nb::Error::WouldBlock` and stops on `Ok`/`nb::Error::Other`, then
  `pin_led.set_high()`; a failing pin operation is returned as
  `Error::LedError`, a definitive ADC failure as `Error::ReadError`.

Capabilities are trait objects whose methods take `&mut self`, so they
are embedded as explicit state-passing functions.  The retry loop has no
bound in the source, so it is embedded with a fuel parameter: `none`
means the loop was still running after `fuel` conversion attempts, and
divergence is the statement that every fuel yields `none`.
-/

section DustSensor

universe u v

/-- `nb::Result<Word, Error>`: one conversion attempt either succeeds with a
word, fails definitively (`nb::Error::Other`), or is not ready yet
(`nb::Error::WouldBlock`). -/
inductive NbResult (Word AdcError : Type) where
  | ok : Word → NbResult Word AdcError
  | other : AdcError → NbResult Word AdcError
  | wouldBlock : NbResult Word AdcError
deriving DecidableEq, Repr

/-- `enum Error<OutputError, AdcError>` from the source: the two failure
variants `read` can return. -/
inductive Error (OutputError AdcError : Type) where
  | LedError : OutputError → Error OutputError AdcError
  | ReadError : AdcError → Error OutputError AdcError
deriving DecidableEq, Repr

/-- The `OutputPin` trait of the LED pin: `set_low` and `set_high` take
`&mut self` and return `Result<(), Error>`, embedded as state-passing
functions returning the updated pin and the outcome. -/
structure OutputPinImpl (PinLed OutputError : Type) where
  set_low : PinLed → PinLed × Except OutputError Unit
  set_high : PinLed → PinLed × Except OutputError Unit

/-- The `OneShot` trait of the ADC reader: `read` takes `&mut self` and
`&mut pin` and returns `nb::Result<Word, Error>`, embedded as a
state-passing function returning the updated reader, the updated pin and
the attempt's outcome. -/
structure OneShotImpl (OneShotReader PinData Word AdcError : Type) where
  read : OneShotReader → PinData → (OneShotReader × PinData) × NbResult Word AdcError

/-- The `Channel` trait: `fn channel() -> Self::ID` takes no receiver, so
the channel identity is a constant attached to the pin *type*. -/
structure ChannelImpl (PinData ID : Type) where
  channel : ID

/-- `struct Gp2y1014au`: the driver, holding the three capabilities.
The two `PhantomData` fields have no runtime content and are omitted. -/
structure Gp2y1014au (PinLed OneShotReader PinData : Type) where
  pin_led : PinLed
  one_shot_reader : OneShotReader
  pin_data : PinData
deriving DecidableEq, Repr

/-- The capability invocations `read` can issue, in order of issue. -/
inductive Event where
  | setLow
  | convAttempt
  | setHigh
deriving DecidableEq, Repr

variable {PinLed OneShotReader PinData Word OutputError AdcError : Type}

/-- `Gp2y1014au::new(pin_led, pin_data, one_shot_reader)`: stores the three
capabilities, nothing else. -/
def Gp2y1014au.new (pin_led : PinLed) (pin_data : PinData)
    (one_shot_reader : OneShotReader) : Gp2y1014au PinLed OneShotReader PinData :=
  { pin_led := pin_led, one_shot_reader := one_shot_reader, pin_data := pin_data }

/-- `Gp2y1014au::split(self)`: returns `(pin_led, pin_data, one_shot_reader)`. -/
def Gp2y1014au.split (s : Gp2y1014au PinLed OneShotReader PinData) :
    PinLed × PinData × OneShotReader :=
  (s.pin_led, s.pin_data, s.one_shot_reader)

/-- Outcome of the retry loop in `read`, when it finishes within the fuel:
the remembered `result` binding of the source, the final reader and pin
states, and how many conversion attempts were made. -/
structure LoopOut (OneShotReader PinData Word AdcError : Type) where
  result : Except AdcError Word
  reader : OneShotReader
  pin : PinData
  attempts : Nat
deriving Repr

/-- The `loop { ... }` of `Gp2y1014au::read`: call
`one_shot_reader.read(&mut pin_data)`; `Ok` and `Err(Other)` break with a
remembered result, `Err(WouldBlock)` continues.  `fuel` bounds the number
of attempts this unrolling may make; `none` means the loop was still
running. -/
def Gp2y1014au.readLoop (os : OneShotImpl OneShotReader PinData Word AdcError) :
    Nat → OneShotReader → PinData → Option (LoopOut OneShotReader PinData Word AdcError)
  | 0, _, _ => none
  | fuel + 1, r, p =>
    match os.read r p with
    | ((r', p'), .ok w) => some ⟨.ok w, r', p', 1⟩
    | ((r', p'), .other e) => some ⟨.error e, r', p', 1⟩
    | ((r', p'), .wouldBlock) =>
      (Gp2y1014au.readLoop os fuel r' p').map
        (fun o => ⟨o.result, o.reader, o.pin, o.attempts + 1⟩)

/-- Outcome of one `Gp2y1014au::read` call: the returned
`Result<Word, Error>`, the driver's state after the call (`read` takes
`&mut self`), and the sequence of capability invocations issued. -/
structure ReadOut (PinLed OneShotReader PinData Word OutputError AdcError : Type) where
  result : Except (Error OutputError AdcError) Word
  state : Gp2y1014au PinLed OneShotReader PinData
  events : List Event
deriving Repr

/-- How `read` returns the remembered loop result when `set_high`
succeeded: a sample word verbatim, a definitive ADC failure wrapped in
`Error::ReadError`. -/
def wrapResult {Word OutputError AdcError : Type} :
    Except AdcError Word → Except (Error OutputError AdcError) Word
  | .ok w => .ok w
  | .error e => .error (.ReadError e)

/-- `Gp2y1014au::read`: `self.pin_led.set_low()` (early return
`Err(LedError)` on failure), the retry loop, then
`self.pin_led.set_high()` (early return `Err(LedError)` on failure,
discarding `result`), else the remembered `result` with a definitive ADC
failure wrapped as `Err(ReadError)`.  `fuel` bounds the retry loop's
attempts; `none` means `read` had not returned after `fuel` attempts. -/
def Gp2y1014au.read (op : OutputPinImpl PinLed OutputError)
    (os : OneShotImpl OneShotReader PinData Word AdcError)
    (s : Gp2y1014au PinLed OneShotReader PinData) (fuel : Nat) :
    Option (ReadOut PinLed OneShotReader PinData Word OutputError AdcError) :=
  let low := op.set_low s.pin_led
  match low.2 with
  | .error e =>
    some ⟨.error (.LedError e), ⟨low.1, s.one_shot_reader, s.pin_data⟩, [.setLow]⟩
  | .ok _ =>
    match Gp2y1014au.readLoop os fuel s.one_shot_reader s.pin_data with
    | none => none
    | some o =>
      let high := op.set_high low.1
      let s' : Gp2y1014au PinLed OneShotReader PinData := ⟨high.1, o.reader, o.pin⟩
      let evs := Event.setLow :: (List.replicate o.attempts Event.convAttempt
        ++ [Event.setHigh])
      match high.2 with
      | .error e => some ⟨.error (.LedError e), s', evs⟩
      | .ok _ => some ⟨wrapResult o.result, s', evs⟩

/-- The reader/pin state just before the `n`-th conversion attempt that a
run of the retry loop would issue, starting from reader `r` and pin `p`. -/
def osState (os : OneShotImpl OneShotReader PinData Word AdcError)
    (r : OneShotReader) (p : PinData) : Nat → OneShotReader × PinData
  | 0 => (r, p)
  | n + 1 =>
    let s := osState os r p n
    (os.read s.1 s.2).1

/-- The outcome of the `n`-th conversion attempt the retry loop would
issue, starting from reader `r` and pin `p`. -/
def attemptOutcome (os : OneShotImpl OneShotReader PinData Word AdcError)
    (r : OneShotReader) (p : PinData) (n : Nat) : NbResult Word AdcError :=
  (os.read (osState os r p n).1 (osState os r p n).2).2

/-- Iterated `read` calls: the driver state after `n` consecutive calls,
each with the given fuel; `none` if some call's loop outran its fuel. -/
def readIter (op : OutputPinImpl PinLed OutputError)
    (os : OneShotImpl OneShotReader PinData Word AdcError) (fuel : Nat) :
    Nat → Gp2y1014au PinLed OneShotReader PinData →
      Option (Gp2y1014au PinLed OneShotReader PinData)
  | 0, s => some s
  | n + 1, s =>
    match Gp2y1014au.read op os s fuel with
    | none => none
    | some o => readIter op os fuel n o.state

/-- A definitive conversion outcome as the remembered loop result:
`none` exactly for the transient `WouldBlock`. -/
def definitiveResult : NbResult Word AdcError → Option (Except AdcError Word)
  | .ok w => some (.ok w)
  | .other e => some (.error e)
  | .wouldBlock => none

/-! ## Concrete capability instances (mirroring the source's test doubles) -/

/-- An output pin whose `set_low`/`set_high` always succeed
(`TestOutputPin<GoodState>` in the source's tests). -/
def goodPin : OutputPinImpl Unit Unit :=
  { set_low := fun p => (p, .ok ()), set_high := fun p => (p, .ok ()) }

/-- An output pin whose `set_low`/`set_high` always fail
(`TestOutputPin<BadState>` in the source's tests). -/
def badPin : OutputPinImpl Unit Unit :=
  { set_low := fun p => (p, .error ()), set_high := fun p => (p, .error ()) }

/-- A pin that succeeds on `set_low` but fails on `set_high`. -/
def highFailPin : OutputPinImpl Unit Unit :=
  { set_low := fun p => (p, .ok ()), set_high := fun p => (p, .error ()) }

/-- An ADC whose every attempt succeeds with the word `10`
(`TestAdc` reading `TestAnalogPin<GoodState>` in the source's tests). -/
def goodAdc : OneShotImpl Unit Unit Nat Unit :=
  { read := fun r p => ((r, p), .ok 10) }

/-- An ADC whose every attempt fails definitively
(`TestAdc` reading `TestAnalogPin<BadState>` in the source's tests). -/
def badAdc : OneShotImpl Unit Unit Nat Unit :=
  { read := fun r p => ((r, p), .other ()) }

/-- An ADC that counts attempts in its reader state and answers
`WouldBlock` to the first `d` attempts, then succeeds with `10`. -/
def delayAdc (d : Nat) : OneShotImpl Nat Unit Nat Unit :=
  { read := fun r p => ((r + 1, p), if r < d then .wouldBlock else .ok 10) }

/-- An ADC that answers `WouldBlock` to every attempt. -/
def blockAdc : OneShotImpl Unit Unit Nat Unit :=
  { read := fun r p => ((r, p), .wouldBlock) }

/-- An always-succeeding output pin over a `Bool` pin state,
behaviourally identical to `goodPin`. -/
def goodPinB : OutputPinImpl Bool Unit :=
  { set_low := fun p => (p, .ok ()), set_high := fun p => (p, .ok ()) }

/-- An ADC over `Bool` reader/pin states whose every attempt succeeds
with `10`, behaviourally identical to `goodAdc`. -/
def goodAdcB : OneShotImpl Bool Bool Nat Unit :=
  { read := fun r p => ((r, p), .ok 10) }

/-- An ADC over a `Nat`-valued channel pin that leaves the pin unchanged
and answers with a word derived from the pin value. -/
def probeAdc : OneShotImpl Unit Nat Nat Unit :=
  { read := fun r p => ((r, p), .ok (p + 1)) }

/-! ## Characterization lemmas -/

variable {op : OutputPinImpl PinLed OutputError}
variable {os : OneShotImpl OneShotReader PinData Word AdcError}

theorem osState_succ_shift (os : OneShotImpl OneShotReader PinData Word AdcError)
    (r : OneShotReader) (p : PinData) (n : Nat) :
    osState os r p (n + 1) = osState os (os.read r p).1.1 (os.read r p).1.2 n := by
  induction n with
  | zero => simp [osState]
  | succ n ih => rw [osState, ih, osState]

theorem attemptOutcome_succ_shift (os : OneShotImpl OneShotReader PinData Word AdcError)
    (r : OneShotReader) (p : PinData) (n : Nat) :
    attemptOutcome os r p (n + 1) =
      attemptOutcome os (os.read r p).1.1 (os.read r p).1.2 n := by
  simp [attemptOutcome, osState_succ_shift]

/-- If the first `k` attempts are transient and attempt `k` is definitive
with remembered result `res`, the loop finishes within any fuel above `k`,
remembering `res`, leaving the reader/pin state after `k + 1` attempts,
and having made exactly `k + 1` attempts. -/
theorem readLoop_first_definitive (k : Nat)
    (res : Except AdcError Word) :
    ∀ (fuel : Nat) (r : OneShotReader) (p : PinData),
      (∀ n < k, attemptOutcome os r p n = .wouldBlock) →
      definitiveResult (attemptOutcome os r p k) = some res →
      k < fuel →
      Gp2y1014au.readLoop os fuel r p =
        some ⟨res, (osState os r p (k + 1)).1, (osState os r p (k + 1)).2, k + 1⟩ := by
  induction k with
  | zero =>
    intro fuel r p _ hdef hfuel
    obtain ⟨m, rfl⟩ : ∃ m, fuel = m + 1 :=
      ⟨fuel - 1, (Nat.succ_pred_eq_of_pos hfuel).symm⟩
    have h0 : attemptOutcome os r p 0 = (os.read r p).2 := by
      simp [attemptOutcome, osState]
    rcases hos : os.read r p with ⟨⟨r', p'⟩, out⟩
    rw [h0, hos] at hdef
    cases out with
    | ok w =>
      simp [definitiveResult] at hdef
      simp [Gp2y1014au.readLoop, hos, osState, ← hdef]
    | other e =>
      simp [definitiveResult] at hdef
      simp [Gp2y1014au.readLoop, hos, osState, ← hdef]
    | wouldBlock => simp [definitiveResult] at hdef
  | succ k ih =>
    intro fuel r p hblk hdef hfuel
    obtain ⟨m, rfl⟩ : ∃ m, fuel = m + 1 :=
      ⟨fuel - 1, (Nat.succ_pred_eq_of_pos (Nat.lt_of_le_of_lt (Nat.zero_le _) hfuel)).symm⟩
    have h0 : attemptOutcome os r p 0 = (os.read r p).2 := by
      simp [attemptOutcome, osState]
    rcases hos : os.read r p with ⟨⟨r', p'⟩, out⟩
    have hblk0 := hblk 0 (Nat.succ_pos k)
    rw [h0, hos] at hblk0
    subst hblk0
    have hshift : ∀ n, attemptOutcome os r p (n + 1) = attemptOutcome os r' p' n := by
      intro n
      rw [attemptOutcome_succ_shift, hos]
    have hblk' : ∀ n < k, attemptOutcome os r' p' n = .wouldBlock := by
      intro n hn
      rw [← hshift]
      exact hblk (n + 1) (Nat.succ_lt_succ hn)
    rw [hshift] at hdef
    have hrec := ih m r' p' hblk' hdef (Nat.lt_of_succ_lt_succ hfuel)
    have hstate : ∀ j, osState os r p (j + 1) = osState os r' p' j := by
      intro j
      rw [osState_succ_shift, hos]
    simp [Gp2y1014au.readLoop, hos, hrec, hstate]

/-- If every attempt the fuel allows is transient, the loop is still
running when the fuel runs out. -/
theorem readLoop_all_transient :
    ∀ (fuel : Nat) (r : OneShotReader) (p : PinData),
      (∀ n < fuel, attemptOutcome os r p n = .wouldBlock) →
      Gp2y1014au.readLoop os fuel r p = none := by
  intro fuel
  induction fuel with
  | zero => intro r p _; simp [Gp2y1014au.readLoop]
  | succ fuel ih =>
    intro r p hblk
    have h0 := hblk 0 (Nat.succ_pos fuel)
    rcases hos : os.read r p with ⟨⟨r', p'⟩, out⟩
    have h0' : attemptOutcome os r p 0 = (os.read r p).2 := by
      simp [attemptOutcome, osState]
    rw [h0', hos] at h0
    subst h0
    have hblk' : ∀ n < fuel, attemptOutcome os r' p' n = .wouldBlock := by
      intro n hn
      have := hblk (n + 1) (Nat.succ_lt_succ hn)
      rwa [attemptOutcome_succ_shift, hos] at this
    simp [Gp2y1014au.readLoop, hos, ih r' p' hblk']

/-- If the loop finished, some attempt within the fuel was definitive. -/
theorem readLoop_some_definitive :
    ∀ (fuel : Nat) (r : OneShotReader) (p : PinData)
      (o : LoopOut OneShotReader PinData Word AdcError),
      Gp2y1014au.readLoop os fuel r p = some o →
      ∃ k < fuel, attemptOutcome os r p k ≠ .wouldBlock := by
  intro fuel
  induction fuel with
  | zero => intro r p o h; simp [Gp2y1014au.readLoop] at h
  | succ fuel ih =>
    intro r p o h
    rcases hos : os.read r p with ⟨⟨r', p'⟩, out⟩
    have h0 : attemptOutcome os r p 0 = out := by
      simp [attemptOutcome, osState, hos]
    cases out with
    | ok w => exact ⟨0, Nat.succ_pos fuel, by simp [h0]⟩
    | other e => exact ⟨0, Nat.succ_pos fuel, by simp [h0]⟩
    | wouldBlock =>
      rw [Gp2y1014au.readLoop, hos] at h
      simp only [Option.map_eq_some'] at h
      obtain ⟨o', ho, _⟩ := h
      obtain ⟨k, hk, hne⟩ := ih r' p' o' ho
      refine ⟨k + 1, Nat.succ_lt_succ hk, ?_⟩
      rwa [attemptOutcome_succ_shift, hos]

/-- The capability-invocation sequence of a `read` call whose loop made
`a` attempts and that reached `set_high`. -/
def fullEvents (a : Nat) : List Event :=
  Event.setLow :: (List.replicate a Event.convAttempt ++ [Event.setHigh])

theorem read_set_low_fails (e : OutputError)
    (s : Gp2y1014au PinLed OneShotReader PinData) (fuel : Nat)
    (hlow : (op.set_low s.pin_led).2 = .error e) :
    Gp2y1014au.read op os s fuel =
      some ⟨.error (.LedError e),
        ⟨(op.set_low s.pin_led).1, s.one_shot_reader, s.pin_data⟩, [.setLow]⟩ := by
  simp [Gp2y1014au.read, hlow]

theorem read_high_ok (s : Gp2y1014au PinLed OneShotReader PinData) (fuel : Nat)
    (o : LoopOut OneShotReader PinData Word AdcError)
    (hlow : (op.set_low s.pin_led).2 = .ok ())
    (hloop : Gp2y1014au.readLoop os fuel s.one_shot_reader s.pin_data = some o)
    (hhigh : (op.set_high (op.set_low s.pin_led).1).2 = .ok ()) :
    Gp2y1014au.read op os s fuel =
      some ⟨wrapResult o.result,
        ⟨(op.set_high (op.set_low s.pin_led).1).1, o.reader, o.pin⟩,
        fullEvents o.attempts⟩ := by
  simp [Gp2y1014au.read, hlow, hloop, hhigh, fullEvents]

theorem read_high_fails (s : Gp2y1014au PinLed OneShotReader PinData) (fuel : Nat)
    (o : LoopOut OneShotReader PinData Word AdcError) (e : OutputError)
    (hlow : (op.set_low s.pin_led).2 = .ok ())
    (hloop : Gp2y1014au.readLoop os fuel s.one_shot_reader s.pin_data = some o)
    (hhigh : (op.set_high (op.set_low s.pin_led).1).2 = .error e) :
    Gp2y1014au.read op os s fuel =
      some ⟨.error (.LedError e),
        ⟨(op.set_high (op.set_low s.pin_led).1).1, o.reader, o.pin⟩,
        fullEvents o.attempts⟩ := by
  simp [Gp2y1014au.read, hlow, hloop, hhigh, fullEvents]

theorem read_loop_running (s : Gp2y1014au PinLed OneShotReader PinData) (fuel : Nat)
    (hlow : (op.set_low s.pin_led).2 = .ok ())
    (hloop : Gp2y1014au.readLoop os fuel s.one_shot_reader s.pin_data = none) :
    Gp2y1014au.read op os s fuel = none := by
  simp [Gp2y1014au.read, hlow, hloop]

theorem readLoop_succ_ok {r r' : OneShotReader} {p p' : PinData} {w : Word}
    (hos : os.read r p = ((r', p'), .ok w)) (fuel : Nat) :
    Gp2y1014au.readLoop os (fuel + 1) r p = some ⟨.ok w, r', p', 1⟩ := by
  rw [Gp2y1014au.readLoop, hos]

theorem readLoop_succ_other {r r' : OneShotReader} {p p' : PinData} {e : AdcError}
    (hos : os.read r p = ((r', p'), .other e)) (fuel : Nat) :
    Gp2y1014au.readLoop os (fuel + 1) r p = some ⟨.error e, r', p', 1⟩ := by
  rw [Gp2y1014au.readLoop, hos]

theorem readLoop_succ_block {r r' : OneShotReader} {p p' : PinData}
    (hos : os.read r p = ((r', p'), .wouldBlock)) (fuel : Nat) :
    Gp2y1014au.readLoop os (fuel + 1) r p =
      (Gp2y1014au.readLoop os fuel r' p').map
        (fun o => ⟨o.result, o.reader, o.pin, o.attempts + 1⟩) := by
  rw [Gp2y1014au.readLoop, hos]

/-- A definitive attempt at index `k` lets the loop finish with fuel
`k + 1`. -/
theorem readLoop_terminates_of_definitive :
    ∀ (k : Nat) (r : OneShotReader) (p : PinData),
      attemptOutcome os r p k ≠ .wouldBlock →
      ∃ o, Gp2y1014au.readLoop os (k + 1) r p = some o := by
  intro k
  induction k with
  | zero =>
    intro r p hk
    have h0 : attemptOutcome os r p 0 = (os.read r p).2 := by
      simp [attemptOutcome, osState]
    rcases hos : os.read r p with ⟨⟨r', p'⟩, out⟩
    rw [h0, hos] at hk
    cases out with
    | ok w => exact ⟨_, readLoop_succ_ok hos 0⟩
    | other e => exact ⟨_, readLoop_succ_other hos 0⟩
    | wouldBlock => exact absurd rfl hk
  | succ k ih =>
    intro r p hk
    rcases hos : os.read r p with ⟨⟨r', p'⟩, out⟩
    cases out with
    | ok w => exact ⟨_, readLoop_succ_ok hos (k + 1)⟩
    | other e => exact ⟨_, readLoop_succ_other hos (k + 1)⟩
    | wouldBlock =>
      rw [attemptOutcome_succ_shift, hos] at hk
      obtain ⟨o, ho⟩ := ih r' p' hk
      refine ⟨⟨o.result, o.reader, o.pin, o.attempts + 1⟩, ?_⟩
      rw [readLoop_succ_block hos (k + 1), ho, Option.map]

/-! ## The claims -/

/-- C1: if asserting the emitter active (`set_low`) succeeds, the first
conversion attempt succeeds with sample word `w`, and asserting the
emitter inactive (`set_high`) succeeds, then `read` returns `Ok(w)` —
exactly the word the conversion capability produced. -/
theorem C1_read_returns_first_attempt_sample
    (op : OutputPinImpl PinLed OutputError)
    (os : OneShotImpl OneShotReader PinData Word AdcError)
    (s : Gp2y1014au PinLed OneShotReader PinData) (fuel : Nat) (w : Word)
    (hlow : (op.set_low s.pin_led).2 = .ok ())
    (hconv : (os.read s.one_shot_reader s.pin_data).2 = .ok w)
    (hhigh : (op.set_high (op.set_low s.pin_led).1).2 = .ok ())
    (hfuel : 0 < fuel) :
    ∃ out, Gp2y1014au.read op os s fuel = some out ∧ out.result = .ok w := by
  have hdef : definitiveResult (attemptOutcome os s.one_shot_reader s.pin_data 0) =
      some (.ok w) := by
    simp [attemptOutcome, osState, hconv, definitiveResult]
  have hloop := @readLoop_first_definitive _ _ _ _ os 0 (.ok w)
    fuel s.one_shot_reader s.pin_data (by intro n hn; omega) hdef hfuel
  exact ⟨_, read_high_ok s fuel _ hlow hloop hhigh, by simp [wrapResult]⟩

/-- C1 witness: an always-succeeding pin plus an ADC that answers `10`
on the first attempt gives `Ok 10` (the source's
`read_returns_value_when_no_errors_present` test). -/
theorem C1_witness :
    ∃ out, Gp2y1014au.read goodPin goodAdc (Gp2y1014au.new () () ()) 1 = some out ∧
      out.result = .ok 10 :=
  C1_read_returns_first_attempt_sample goodPin goodAdc (Gp2y1014au.new () () ())
    1 10 rfl rfl rfl (by decide)

/-- C2: if asserting the emitter active (`set_low`) fails with `e`,
`read` returns `Err(LedError e)` and the only capability invocation
issued is that `set_low`: the conversion capability is never invoked and
`set_high` is never attempted. -/
theorem C2_set_low_failure_short_circuits
    (op : OutputPinImpl PinLed OutputError)
    (os : OneShotImpl OneShotReader PinData Word AdcError)
    (s : Gp2y1014au PinLed OneShotReader PinData) (fuel : Nat) (e : OutputError)
    (hlow : (op.set_low s.pin_led).2 = .error e) :
    ∃ out, Gp2y1014au.read op os s fuel = some out ∧
      out.result = .error (.LedError e) ∧
      out.events = [.setLow] ∧
      Event.convAttempt ∉ out.events ∧ Event.setHigh ∉ out.events := by
  refine ⟨_, read_set_low_fails e s fuel hlow, rfl, rfl, by simp, by simp⟩

/-- C2 witness: a pin whose `set_low` always fails makes `read` return
`LedError` having issued only the `set_low` invocation. -/
theorem C2_witness :
    ∃ out, Gp2y1014au.read badPin goodAdc (Gp2y1014au.new () () ()) 5 = some out ∧
      out.result = .error (.LedError ()) ∧
      out.events = [.setLow] ∧
      Event.convAttempt ∉ out.events ∧ Event.setHigh ∉ out.events :=
  C2_set_low_failure_short_circuits badPin goodAdc (Gp2y1014au.new () () ()) 5 () rfl

/-- C3: if `set_low` succeeds, the retry loop ends with some definitive
remembered result `o.result` (a sample or a conversion failure), and
`set_high` then fails with `e`, `read` returns `Err(LedError e)`,
discarding `o.result` — whatever it was, including a sample word. -/
theorem C3_set_high_failure_overrides
    (op : OutputPinImpl PinLed OutputError)
    (os : OneShotImpl OneShotReader PinData Word AdcError)
    (s : Gp2y1014au PinLed OneShotReader PinData) (fuel : Nat)
    (o : LoopOut OneShotReader PinData Word AdcError) (e : OutputError)
    (hlow : (op.set_low s.pin_led).2 = .ok ())
    (hloop : Gp2y1014au.readLoop os fuel s.one_shot_reader s.pin_data = some o)
    (hhigh : (op.set_high (op.set_low s.pin_led).1).2 = .error e) :
    ∃ out, Gp2y1014au.read op os s fuel = some out ∧
      out.result = .error (.LedError e) := by
  exact ⟨_, read_high_fails s fuel o e hlow hloop hhigh, rfl⟩

/-- C3 witness: `set_low` succeeds, the loop obtains the sample `10`,
`set_high` fails — `read` returns `LedError`, not the sample. -/
theorem C3_witness :
    (Gp2y1014au.readLoop goodAdc 1 () () =
      some ⟨.ok 10, (), (), 1⟩) ∧
    ∃ out, Gp2y1014au.read highFailPin goodAdc (Gp2y1014au.new () () ()) 1 = some out ∧
      out.result = .error (.LedError ()) :=
  ⟨rfl, C3_set_high_failure_overrides highFailPin goodAdc (Gp2y1014au.new () () ())
    1 ⟨.ok 10, (), (), 1⟩ () rfl rfl rfl⟩

/-- C4: if `set_low` succeeds, the loop's first definitive attempt (index
`k`, all earlier attempts transient) is a definitive failure with `e`,
and `set_high` succeeds, `read` returns `Err(ReadError e)` — wrapping
exactly the underlying failure. -/
theorem C4_definitive_failure_wrapped_verbatim
    (op : OutputPinImpl PinLed OutputError)
    (os : OneShotImpl OneShotReader PinData Word AdcError)
    (s : Gp2y1014au PinLed OneShotReader PinData) (fuel k : Nat) (e : AdcError)
    (hblk : ∀ n < k, attemptOutcome os s.one_shot_reader s.pin_data n = .wouldBlock)
    (hfail : attemptOutcome os s.one_shot_reader s.pin_data k = .other e)
    (hlow : (op.set_low s.pin_led).2 = .ok ())
    (hhigh : (op.set_high (op.set_low s.pin_led).1).2 = .ok ())
    (hfuel : k < fuel) :
    ∃ out, Gp2y1014au.read op os s fuel = some out ∧
      out.result = .error (.ReadError e) := by
  have hdef : definitiveResult (attemptOutcome os s.one_shot_reader s.pin_data k) =
      some (.error e) := by
    rw [hfail]; rfl
  have hloop := @readLoop_first_definitive _ _ _ _ os k (.error e)
    fuel s.one_shot_reader s.pin_data hblk hdef hfuel
  exact ⟨_, read_high_ok s fuel _ hlow hloop hhigh, by simp [wrapResult]⟩

/-- C4 witness: an ADC that always fails definitively makes `read`
return `ReadError` (the source's
`read_returns_error_when_one_shot_read_fails` test). -/
theorem C4_witness :
    ∃ out, Gp2y1014au.read goodPin badAdc (Gp2y1014au.new () () ()) 1 = some out ∧
      out.result = .error (.ReadError ()) :=
  C4_definitive_failure_wrapped_verbatim goodPin badAdc (Gp2y1014au.new () () ())
    1 0 () (by intro n hn; omega) rfl rfl rfl (by decide)

/-- C5: for every `N ≥ 0`, if the first `N` attempts are transient
(`WouldBlock`) and attempt `N` succeeds with `w`, and both pin operations
succeed, `read` returns `Ok(w)` — the same `Ok(w)` as a first-attempt
success — and no transient attempt surfaces as a failure. -/
theorem C5_transient_attempts_absorbed
    (op : OutputPinImpl PinLed OutputError)
    (os : OneShotImpl OneShotReader PinData Word AdcError)
    (s : Gp2y1014au PinLed OneShotReader PinData) (fuel N : Nat) (w : Word)
    (hblk : ∀ n < N, attemptOutcome os s.one_shot_reader s.pin_data n = .wouldBlock)
    (hok : attemptOutcome os s.one_shot_reader s.pin_data N = .ok w)
    (hlow : (op.set_low s.pin_led).2 = .ok ())
    (hhigh : (op.set_high (op.set_low s.pin_led).1).2 = .ok ())
    (hfuel : N < fuel) :
    ∃ out, Gp2y1014au.read op os s fuel = some out ∧ out.result = .ok w := by
  have hdef : definitiveResult (attemptOutcome os s.one_shot_reader s.pin_data N) =
      some (.ok w) := by
    rw [hok]; rfl
  have hloop := @readLoop_first_definitive _ _ _ _ os N (.ok w)
    fuel s.one_shot_reader s.pin_data hblk hdef hfuel
  exact ⟨_, read_high_ok s fuel _ hlow hloop hhigh, by simp [wrapResult]⟩

/-- C5 witness: one `WouldBlock` then success with `10` yields `Ok 10`
(the spec's concrete scenario with `N = 1`). -/
theorem C5_witness :
    ∃ out, Gp2y1014au.read goodPin (delayAdc 1) (Gp2y1014au.new () () 0) 2 = some out ∧
      out.result = .ok 10 :=
  C5_transient_attempts_absorbed goodPin (delayAdc 1) (Gp2y1014au.new () () 0)
    2 1 10 (by decide) (by decide) rfl rfl (by decide)

/-- C6: for all capability values `a`, `b`, `c`, `split` applied to the
driver built by `new a b c` returns exactly the triple `(a, b, c)` — the
identical output handle, channel identity and conversion handle,
unmodified.  (That `split` consumes the driver is Rust move semantics,
enforced by the type system rather than by a value-level fact.) -/
theorem C6_split_returns_construction_inputs
    (a : PinLed) (b : PinData) (c : OneShotReader) :
    Gp2y1014au.split (Gp2y1014au.new a b c) = (a, b, c) :=
  rfl

/-- C7: `new` is a total function of its three inputs — it succeeds on
every input with no validation — and the driver it returns is literally
the record storing those three capabilities and nothing else.  `new`
takes no capability implementation as input, so it cannot invoke
`set_low`, `set_high` or a conversion: it has no side effects. -/
theorem C7_new_stores_inputs_without_validation
    (a : PinLed) (b : PinData) (c : OneShotReader) :
    Gp2y1014au.new a b c =
      { pin_led := a, one_shot_reader := c, pin_data := b } :=
  rfl

/-- C8: `read` terminates — some fuel suffices for it to return — iff
either `set_low` fails or some conversion attempt in the induced attempt
sequence is definitive (not `WouldBlock`).  In particular, if `set_low`
succeeds and every attempt answers `WouldBlock`, then `read` returns for
no fuel at all: the loop runs forever, with no retry bound or timeout. -/
theorem C8_read_terminates_iff_definitive_attempt
    (op : OutputPinImpl PinLed OutputError)
    (os : OneShotImpl OneShotReader PinData Word AdcError)
    (s : Gp2y1014au PinLed OneShotReader PinData) :
    (∃ fuel out, Gp2y1014au.read op os s fuel = some out) ↔
      ((∃ e, (op.set_low s.pin_led).2 = .error e) ∨
       ∃ k, attemptOutcome os s.one_shot_reader s.pin_data k ≠ .wouldBlock) := by
  constructor
  · rintro ⟨fuel, out, hout⟩
    rcases hlow : (op.set_low s.pin_led).2 with e | u
    · exact Or.inl ⟨e, rfl⟩
    · cases u
      rcases hloop : Gp2y1014au.readLoop os fuel s.one_shot_reader s.pin_data with _ | o
      · rw [read_loop_running s fuel hlow hloop] at hout
        exact absurd hout (by simp)
      · obtain ⟨k, _, hk⟩ := readLoop_some_definitive fuel _ _ o hloop
        exact Or.inr ⟨k, hk⟩
  · rintro (⟨e, he⟩ | ⟨k, hk⟩)
    · exact ⟨0, _, read_set_low_fails e s 0 he⟩
    · rcases hlow : (op.set_low s.pin_led).2 with e | u
      · exact ⟨0, _, read_set_low_fails e s 0 hlow⟩
      · cases u
        obtain ⟨o, ho⟩ := readLoop_terminates_of_definitive k
          s.one_shot_reader s.pin_data hk
        rcases hhigh : (op.set_high (op.set_low s.pin_led).1).2 with e | u
        · exact ⟨k + 1, _, read_high_fails s (k + 1) o e hlow ho hhigh⟩
        · cases u
          exact ⟨k + 1, _, read_high_ok s (k + 1) o hlow ho hhigh⟩

/-- Two retry loops over capabilities that produce pointwise identical
attempt outcomes agree, fuel for fuel, on whether they finish and on the
remembered result and attempt count. -/
theorem readLoop_congr
    {OneShotReader₂ PinData₂ : Type}
    {os₂ : OneShotImpl OneShotReader₂ PinData₂ Word AdcError} :
    ∀ (fuel : Nat) (r₁ : OneShotReader) (p₁ : PinData)
      (r₂ : OneShotReader₂) (p₂ : PinData₂),
      (∀ n, attemptOutcome os r₁ p₁ n = attemptOutcome os₂ r₂ p₂ n) →
      (Gp2y1014au.readLoop os fuel r₁ p₁).map (fun o => (o.result, o.attempts)) =
        (Gp2y1014au.readLoop os₂ fuel r₂ p₂).map (fun o => (o.result, o.attempts)) := by
  intro fuel
  induction fuel with
  | zero => intro r₁ p₁ r₂ p₂ _; rfl
  | succ fuel ih =>
    intro r₁ p₁ r₂ p₂ hconv
    have h0 : (os.read r₁ p₁).2 = (os₂.read r₂ p₂).2 := by
      have := hconv 0
      simpa [attemptOutcome, osState] using this
    rcases hos₁ : os.read r₁ p₁ with ⟨⟨r₁', p₁'⟩, out₁⟩
    rcases hos₂ : os₂.read r₂ p₂ with ⟨⟨r₂', p₂'⟩, out₂⟩
    rw [hos₁, hos₂] at h0
    simp only at h0
    subst h0
    cases out₁ with
    | ok w =>
      rw [readLoop_succ_ok hos₁ fuel, readLoop_succ_ok hos₂ fuel]
      rfl
    | other e =>
      rw [readLoop_succ_other hos₁ fuel, readLoop_succ_other hos₂ fuel]
      rfl
    | wouldBlock =>
      have hconv' : ∀ n, attemptOutcome os r₁' p₁' n = attemptOutcome os₂ r₂' p₂' n := by
        intro n
        have := hconv (n + 1)
        rwa [attemptOutcome_succ_shift, hos₁, attemptOutcome_succ_shift, hos₂] at this
      have hrec := ih r₁' p₁' r₂' p₂' hconv'
      rw [readLoop_succ_block hos₁ fuel, readLoop_succ_block hos₂ fuel]
      rcases h₁ : Gp2y1014au.readLoop os fuel r₁' p₁' with _ | o₁
      · rcases h₂ : Gp2y1014au.readLoop os₂ fuel r₂' p₂' with _ | o₂
        · rfl
        · rw [h₁, h₂] at hrec
          exact absurd hrec (by simp)
      · rcases h₂ : Gp2y1014au.readLoop os₂ fuel r₂' p₂' with _ | o₂
        · rw [h₁, h₂] at hrec
          exact absurd hrec (by simp)
        · rw [h₁, h₂] at hrec
          simp only [Option.map_some', Option.some.injEq, Prod.mk.injEq] at hrec
          simp [hrec.1, hrec.2]

/-- C9: `read` is deterministic in the capability behaviours.  Two runs —
possibly over different capability types and different stored values —
whose capabilities produce identical response sequences (same `set_low`
outcome, pointwise the same conversion-attempt outcomes, same `set_high`
outcome after `set_low`) agree, fuel for fuel, on whether they return, on
the returned `Result`, and on the sequence of capability invocations
issued. -/
theorem C9_read_deterministic_in_responses
    {PinLed₂ OneShotReader₂ PinData₂ : Type}
    (op : OutputPinImpl PinLed OutputError)
    (os : OneShotImpl OneShotReader PinData Word AdcError)
    (op₂ : OutputPinImpl PinLed₂ OutputError)
    (os₂ : OneShotImpl OneShotReader₂ PinData₂ Word AdcError)
    (s : Gp2y1014au PinLed OneShotReader PinData)
    (s₂ : Gp2y1014au PinLed₂ OneShotReader₂ PinData₂) (fuel : Nat)
    (hlow : (op.set_low s.pin_led).2 = (op₂.set_low s₂.pin_led).2)
    (hconv : ∀ n, attemptOutcome os s.one_shot_reader s.pin_data n =
      attemptOutcome os₂ s₂.one_shot_reader s₂.pin_data n)
    (hhigh : (op.set_high (op.set_low s.pin_led).1).2 =
      (op₂.set_high (op₂.set_low s₂.pin_led).1).2) :
    (Gp2y1014au.read op os s fuel).map (fun o => (o.result, o.events)) =
      (Gp2y1014au.read op₂ os₂ s₂ fuel).map (fun o => (o.result, o.events)) := by
  rcases hlow₁ : (op.set_low s.pin_led).2 with e | u
  · rw [hlow₁] at hlow
    rw [read_set_low_fails e s fuel hlow₁, read_set_low_fails e s₂ fuel hlow.symm]
    rfl
  · cases u
    rw [hlow₁] at hlow
    have hlow₂ : (op₂.set_low s₂.pin_led).2 = .ok () := hlow.symm
    have hloops := @readLoop_congr _ _ _ _ os _ _ os₂ fuel
      s.one_shot_reader s.pin_data s₂.one_shot_reader s₂.pin_data hconv
    rcases hloop₁ : Gp2y1014au.readLoop os fuel s.one_shot_reader s.pin_data with _ | o₁
    · rw [hloop₁] at hloops
      rcases hloop₂ : Gp2y1014au.readLoop os₂ fuel s₂.one_shot_reader s₂.pin_data with _ | o₂
      · rw [read_loop_running s fuel hlow₁ hloop₁,
          read_loop_running s₂ fuel hlow₂ hloop₂]
        rfl
      · rw [hloop₂] at hloops
        exact absurd hloops (by simp)
    · rw [hloop₁] at hloops
      rcases hloop₂ : Gp2y1014au.readLoop os₂ fuel s₂.one_shot_reader s₂.pin_data with _ | o₂
      · rw [hloop₂] at hloops
        exact absurd hloops (by simp)
      · rw [hloop₂] at hloops
        simp only [Option.map_some', Option.some.injEq, Prod.mk.injEq] at hloops
        obtain ⟨hres, hatt⟩ := hloops
        rcases hhigh₁ : (op.set_high (op.set_low s.pin_led).1).2 with e | u
        · rw [hhigh₁] at hhigh
          rw [read_high_fails s fuel o₁ e hlow₁ hloop₁ hhigh₁,
            read_high_fails s₂ fuel o₂ e hlow₂ hloop₂ hhigh.symm]
          simp [fullEvents, hatt]
        · cases u
          rw [hhigh₁] at hhigh
          rw [read_high_ok s fuel o₁ hlow₁ hloop₁ hhigh₁,
            read_high_ok s₂ fuel o₂ hlow₂ hloop₂ hhigh.symm]
          simp [fullEvents, hatt, hres]

/-- C9 witness: two drivers over different capability types (`Unit`
versus `Bool` states) whose capabilities answer identically give the
same result and the same invocation sequence. -/
theorem C9_witness :
    (Gp2y1014au.read goodPin goodAdc (Gp2y1014au.new () () ()) 3).map
        (fun o => (o.result, o.events)) =
      (Gp2y1014au.read goodPinB goodAdcB (Gp2y1014au.new true false true) 3).map
        (fun o => (o.result, o.events)) :=
  C9_read_deterministic_in_responses goodPin goodAdc goodPinB goodAdcB
    (Gp2y1014au.new () () ()) (Gp2y1014au.new true false true) 3
    rfl (fun n => by simp [attemptOutcome, goodAdc, goodAdcB]) rfl

/-- If the conversion capability leaves the channel pin unchanged, so
does the attempt-state iteration. -/
theorem osState_pin_fixed (hpin : ∀ r p, (os.read r p).1.2 = p) :
    ∀ (k : Nat) (r : OneShotReader) (p : PinData), (osState os r p k).2 = p := by
  intro k
  induction k with
  | zero => intro r p; rfl
  | succ k ih =>
    intro r p
    have hk : osState os r p (k + 1) =
        (os.read (osState os r p k).1 (osState os r p k).2).1 := rfl
    rw [hk, hpin]
    exact ih r p

/-- If the conversion capability leaves the channel pin unchanged, the
retry loop finishes with the pin it started from. -/
theorem readLoop_pin_fixed (hpin : ∀ r p, (os.read r p).1.2 = p) :
    ∀ (fuel : Nat) (r : OneShotReader) (p : PinData)
      (o : LoopOut OneShotReader PinData Word AdcError),
      Gp2y1014au.readLoop os fuel r p = some o → o.pin = p := by
  intro fuel
  induction fuel with
  | zero => intro r p o h; simp [Gp2y1014au.readLoop] at h
  | succ fuel ih =>
    intro r p o h
    rcases hos : os.read r p with ⟨⟨r', p'⟩, out⟩
    have hp' : p' = p := by
      have := hpin r p
      rw [hos] at this
      exact this
    cases out with
    | ok w =>
      rw [readLoop_succ_ok hos fuel] at h
      have h' := Option.some.inj h
      subst h'
      exact hp'
    | other e =>
      rw [readLoop_succ_other hos fuel] at h
      have h' := Option.some.inj h
      subst h'
      exact hp'
    | wouldBlock =>
      rw [readLoop_succ_block hos fuel] at h
      rcases hl : Gp2y1014au.readLoop os fuel r' p' with _ | o'
      · rw [hl] at h; simp at h
      · rw [hl] at h
        have h' := Option.some.inj h
        subst h'
        have := ih r' p' o' hl
        simpa [this] using hp'

/-- If the conversion capability leaves the channel pin unchanged, a
finished `read` leaves `pin_data` exactly as it was. -/
theorem read_pin_data_fixed (hpin : ∀ r p, (os.read r p).1.2 = p)
    (s : Gp2y1014au PinLed OneShotReader PinData) (fuel : Nat)
    (out : ReadOut PinLed OneShotReader PinData Word OutputError AdcError)
    (h : Gp2y1014au.read op os s fuel = some out) :
    out.state.pin_data = s.pin_data := by
  rcases hlow : (op.set_low s.pin_led).2 with e | u
  · rw [read_set_low_fails e s fuel hlow] at h
    have h' := Option.some.inj h
    subst h'
    rfl
  · cases u
    rcases hloop : Gp2y1014au.readLoop os fuel s.one_shot_reader s.pin_data with _ | o
    · rw [read_loop_running s fuel hlow hloop] at h
      exact absurd h (by simp)
    · have hpin' := readLoop_pin_fixed hpin fuel _ _ o hloop
      rcases hhigh : (op.set_high (op.set_low s.pin_led).1).2 with e | u
      · rw [read_high_fails s fuel o e hlow hloop hhigh] at h
        have h' := Option.some.inj h
        subst h'
        exact hpin'
      · cases u
        rw [read_high_ok s fuel o hlow hloop hhigh] at h
        have h' := Option.some.inj h
        subst h'
        exact hpin'

/-- If the conversion capability leaves the channel pin unchanged, any
number of consecutive `read` calls leaves `pin_data` exactly as it was. -/
theorem readIter_pin_fixed (hpin : ∀ r p, (os.read r p).1.2 = p) (fuel : Nat) :
    ∀ (n : Nat) (s s' : Gp2y1014au PinLed OneShotReader PinData),
      readIter op os fuel n s = some s' → s'.pin_data = s.pin_data := by
  intro n
  induction n with
  | zero =>
    intro s s' h
    have h' : some s = some s' := h
    rw [Option.some.inj h']
  | succ n ih =>
    intro s s' h
    rw [readIter] at h
    rcases hr : Gp2y1014au.read op os s fuel with _ | o
    · rw [hr] at h
      exact absurd h (by simp)
    · rw [hr] at h
      have h1 : s'.pin_data = o.state.pin_data := ih o.state s' h
      rw [h1, read_pin_data_fixed hpin s fuel o hr]

/-- C10: provided the conversion capability leaves the channel value
unchanged through its `&mut` access (the spec's channel identity "carries
no behavior of its own"), `read` never replaces the stored channel:
every conversion attempt of the retry loop is issued on exactly the
channel value supplied at construction, and after any number of `read`
calls the driver's channel is unchanged, so `split` still returns the
originally supplied channel in the channel position. -/
theorem C10_channel_identity_preserved
    (op : OutputPinImpl PinLed OutputError)
    (os : OneShotImpl OneShotReader PinData Word AdcError)
    (s : Gp2y1014au PinLed OneShotReader PinData) (fuel : Nat)
    (hpin : ∀ r p, (os.read r p).1.2 = p) :
    (∀ k, (osState os s.one_shot_reader s.pin_data k).2 = s.pin_data) ∧
    (∀ n s', readIter op os fuel n s = some s' →
      s'.pin_data = s.pin_data ∧
      Gp2y1014au.split s' = (s'.pin_led, s.pin_data, s'.one_shot_reader)) := by
  constructor
  · intro k
    exact osState_pin_fixed hpin k s.one_shot_reader s.pin_data
  · intro n s' h
    have hp := readIter_pin_fixed hpin fuel n s s' h
    exact ⟨hp, by rw [Gp2y1014au.split, hp]⟩

/-- C10 witness: a `Nat`-valued channel pin set to `7` at construction is
the pin of every attempt and is still what `split` returns after two
`read` calls. -/
theorem C10_witness :
    (osState probeAdc () 7 5).2 = 7 ∧
    ∃ s', readIter goodPin probeAdc 1 2 (Gp2y1014au.new () 7 ()) = some s' ∧
      Gp2y1014au.split s' = (s'.pin_led, 7, s'.one_shot_reader) := by
  have h := C10_channel_identity_preserved goodPin probeAdc
    (Gp2y1014au.new () 7 ()) 1 (fun r p => rfl)
  exact ⟨h.1 5, ⟨Gp2y1014au.new () 7 (), rfl, (h.2 2 (Gp2y1014au.new () 7 ()) rfl).2⟩⟩

end DustSensor
